import Mathlib

/-!
Verification of the Cessna 172 force/moment model
(src/pyfme/aircrafts/cessna_172.py).

The model is embedded shallowly over the rationals.  Angles that the
source only ever consumes through np.rad2deg (the angle of attack and
the elevator and aileron deflections) are represented directly by their
degree values (fields named with a DEG suffix); the sideslip angle, the
angle-of-attack rate, the body rates and the rudder deflection, which
the source consumes in radians, are represented by their radian values.
The true airspeed divides the rate terms, so an evaluation at TAS = 0
fails in the source (Python division by zero); the top-level
calculate_forces_and_moments therefore returns an Option, none exactly
when TAS = 0.
-/

set_option maxRecDepth 4000
set_option linter.unusedVariables false

namespace PyFME

/-- Foot-to-metre factor.  Modelled from the spec: the constant ft2m of
pyfme.models.constants, which is not under src/; the standard value 0.3048
is used (imperial/SI conversion named in spec section 1). -/
def ft2m : ℚ := 0.3048

/-- Wing area, self.Sw = 174 * ft2m**2 (m^2). -/
def Sw : ℚ := 174 * ft2m ^ 2

/-- Mean chord, self.chord = 4.9 * ft2m (m). -/
def chord : ℚ := 4.9 * ft2m

/-- Wing span, self.span = 35.8 * ft2m (m). -/
def span : ℚ := 35.8 * ft2m

/-- self.alpha_data (degrees). -/
def alpha_data : List ℚ := [-7.5, -5, -2.5, 0, 2.5, 5, 7.5, 10, 15, 17, 18, 19.5]

/-- self.delta_elev_data (degrees). -/
def delta_elev_data : List ℚ := [-26, -20, -10, -5, 0, 7.5, 15, 22.5, 28]

/-- self.delta_aile_data (degrees). -/
def delta_aile_data : List ℚ := [-15, -10, -5, -2.5, 0, 5, 10, 15, 20]

/-- self.CD_data. -/
def CD_data : List ℚ :=
  [0.044, 0.034, 0.03, 0.03, 0.036, 0.048, 0.067, 0.093, 0.15, 0.169, 0.177, 0.184]

/-- self.CD_delta_elev_data, rows indexed by elevator deflection,
columns by angle of attack. -/
def CD_delta_elev_data : List (List ℚ) :=
  [[0.0135, 0.0119, 0.0102, 0.00846, 0.0067, 0.0049, 0.00309, 0.00117, -0.0033, -0.00541, -0.00656, -0.00838],
   [0.0121, 0.0106, 0.00902, 0.00738, 0.00574, 0.00406, 0.00238, 0.00059, -0.00358, -0.00555, -0.00661, -0.00831],
   [0.00651, 0.00552, 0.00447, 0.00338, 0.00229, 0.00117, 0.0000517, -0.00114, -0.00391, -0.00522, -0.00593, -0.00706],
   [0.00249, 0.002, 0.00147, 0.000931, 0.000384, -0.000174, -0.000735, -0.00133, -0.00272, -0.00337, -0.00373, -0.00429],
   [0, 0, 0, 0, 0, 0, 0, 0, 0, 0, 0, 0],
   [-0.00089, -0.00015, 0.00064, 0.00146, 0.00228, 0.00311, 0.00395, 0.00485, 0.00693, 0.00791, 0.00844, 0.00929],
   [0.00121, 0.00261, 0.00411, 0.00566, 0.00721, 0.00879, 0.0104, 0.0121, 0.016, 0.0179, 0.0189, 0.0205],
   [0.00174, 0.00323, 0.00483, 0.00648, 0.00814, 0.00983, 0.0115, 0.0133, 0.0175, 0.0195, 0.0206, 0.0223],
   [0.00273, 0.00438, 0.00614, 0.00796, 0.0098, 0.0117, 0.0135, 0.0155, 0.0202, 0.0224, 0.0236, 0.0255]]

/-- self.CL_data. -/
def CL_data : List ℚ :=
  [-0.571, -0.321, -0.083, 0.148, 0.392, 0.65, 0.918, 1.195, 1.659, 1.789, 1.84, 1.889]

/-- self.CL_alphadot_data. -/
def CL_alphadot_data : List ℚ :=
  [2.434, 2.362, 2.253, 2.209, 2.178, 2.149, 2.069, 1.855, 1.185, 0.8333, 0.6394, 0.4971]

/-- self.CL_q_data. -/
def CL_q_data : List ℚ :=
  [7.282, 7.282, 7.282, 7.282, 7.282, 7.282, 7.282, 7.282, 7.282, 7.282, 7.282, 7.282]

/-- self.CL_delta_elev_data. -/
def CL_delta_elev_data : List ℚ :=
  [-0.132, -0.123, -0.082, -0.041, 0, 0.061, 0.116, 0.124, 0.137]

/-- self.CY_beta_data. -/
def CY_beta_data : List ℚ :=
  [-0.268, -0.268, -0.268, -0.268, -0.268, -0.268, -0.268, -0.268, -0.268, -0.268, -0.268, -0.268]

/-- self.CY_p_data. -/
def CY_p_data : List ℚ :=
  [-0.032, -0.0372, -0.0418, -0.0463, -0.051, -0.0563, -0.0617, -0.068, -0.0783, -0.0812, -0.0824, -0.083]

/-- self.CY_r_data. -/
def CY_r_data : List ℚ :=
  [0.2018, 0.2054, 0.2087, 0.2115, 0.2139, 0.2159, 0.2175, 0.2187, 0.2198, 0.2198, 0.2196, 0.2194]

/-- self.CY_delta_rud_data, the source multiplies the raw table by (-1). -/
def CY_delta_rud_data : List ℚ :=
  ([0.561, 0.561, 0.561, 0.561, 0.561, 0.561, 0.561, 0.561, 0.561, 0.561, 0.561, 0.561] :
    List ℚ).map (fun x => (-1) * x)

/-- self.Cl_beta_data. -/
def Cl_beta_data : List ℚ :=
  [-0.178, -0.186, -0.1943, -0.202, -0.2103, -0.219, -0.2283, -0.2376, -0.2516, -0.255, -0.256, -0.257]

/-- self.Cl_p_data. -/
def Cl_p_data : List ℚ :=
  [-0.4968, -0.4678, -0.4489, -0.4595, 0.487, -0.5085, -0.5231, -0.4916, -0.301, -0.203, -0.1498, -0.0671]

/-- self.Cl_r_data. -/
def Cl_r_data : List ℚ :=
  [-0.09675, -0.05245, -0.01087, 0.02986, 0.07342, 0.1193, 0.1667, 0.2152, 0.2909, 0.3086, 0.3146, 0.3197]

/-- self.Cl_delta_rud_data, the source multiplies the raw table by (-1). -/
def Cl_delta_rud_data : List ℚ :=
  ([0.091, 0.082, 0.072, 0.063, 0.053, 0.0432, 0.0333, 0.0233, 0.0033, -0.005, -0.009, -0.015] :
    List ℚ).map (fun x => (-1) * x)

/-- self.Cl_delta_aile_data. -/
def Cl_delta_aile_data : List ℚ :=
  [-0.078052, -0.059926, -0.036422, -0.018211, 0, 0.018211, 0.036422, 0.059926, 0.078052]

/-- self.CM_data. -/
def CM_data : List ℚ :=
  [0.0597, 0.0498, 0.0314, 0.0075, -0.0248, 0.068, -0.1227, -0.1927, -0.3779, -0.4605, -0.5043, -0.5496]

/-- self.CM_q_data. -/
def CM_q_data : List ℚ :=
  [-6.232, -6.232, -6.232, -6.232, -6.232, -6.232, -6.232, -6.232, -6.232, -6.232, -6.232, -6.232]

/-- self.CM_alphadot_data. -/
def CM_alphadot_data : List ℚ :=
  [-6.64, -6.441, -6.146, -6.025, -5.942, -5.861, -5.644, -5.059, -3.233, -2.273, -1.744, -1.356]

/-- self.CM_delta_elev_data. -/
def CM_delta_elev_data : List ℚ :=
  [0.3302, 0.3065, 0.2014, 0.1007, -0.0002, -0.1511, -0.2863, -0.3109, -0.345]

/-- self.CN_beta_data. -/
def CN_beta_data : List ℚ :=
  [0.0126, 0.0126, 0.0126, 0.0126, 0.0126, 0.0126, 0.0126, 0.0126, 0.0126, 0.0126, 0.0126, 0.0126]

/-- self.CN_p_data. -/
def CN_p_data : List ℚ :=
  [0.03, 0.016, 0.00262, -0.0108, -0.0245, -0.0385, -0.0528, -0.0708, -0.113, -0.1284, -0.1356, -0.1422]

/-- self.CN_r_data. -/
def CN_r_data : List ℚ :=
  [-0.028, -0.027, -0.027, -0.0275, -0.0293, -0.0325, -0.037, -0.043, -0.05484, -0.058, -0.0592, -0.06015]

/-- self.CN_delta_rud_data, the source multiplies the raw table by (-1). -/
def CN_delta_rud_data : List ℚ :=
  ([-0.211, -0.215, -0.218, -0.22, -0.224, -0.226, -0.228, -0.229, -0.23, -0.23, -0.23, -0.23] :
    List ℚ).map (fun x => (-1) * x)

/-- self.CN_delta_aile_data, rows indexed by aileron deflection,
columns by angle of attack. -/
def CN_delta_aile_data : List (List ℚ) :=
  [[-0.004321, -0.002238, -0.0002783, 0.001645, 0.003699, 0.005861, 0.008099, 0.01038, 0.01397, 0.01483, 0.01512, 0.01539],
   [-0.003318, -0.001718, -0.0002137, 0.001263, 0.00284, 0.0045, 0.006218, 0.00797, 0.01072, 0.01138, 0.01161, 0.01181],
   [-0.002016, -0.001044, -0.000123, 0.0007675, 0.00173, 0.002735, 0.0038, 0.004844, 0.00652, 0.00692, 0.00706, 0.0072],
   [-0.00101, -0.000522, -0.0000649, 0.000384, 0.000863, 0.00137, 0.0019, 0.00242, 0.00326, 0.00346, 0.00353, 0.0036],
   [0, 0, 0, 0, 0, 0, 0, 0, 0, 0, 0, 0],
   [0.00101, 0.00052, 0.000065, -0.000384, -0.00086, -0.0014, -0.002, -0.002422, -0.00326, -0.00346, -0.00353, -0.0036],
   [0.00202, 0.001044, 0.00013, -0.0008, -0.00173, -0.002735, -0.0038, -0.004844, -0.00652, -0.00692, -0.00706, -0.0072],
   [0.00332, 0.00172, 0.000214, -0.001263, -0.00284, -0.0045, -0.00622, -0.008, -0.01072, -0.01138, -0.01161, -0.01181],
   [0.004321, 0.00224, 0.00028, -0.001645, -0.0037, -0.00586, -0.0081, -0.0104, -0.014, -0.01483, -0.01512, -0.0154]]

/-- np.interp(x, xp, fp): piecewise-linear interpolation on the strictly
increasing grid xp, returning the boundary value of fp for x outside the
grid (numpy's flat extrapolation).  The catch-all arm (mismatched lengths
or empty grid, on which numpy raises) returns 0 and is never reached on
the model's tables. -/
def np_interp (x : ℚ) : List ℚ → List ℚ → ℚ
  | x1 :: x2 :: xs, y1 :: y2 :: ys =>
    if x ≤ x1 then y1
    else if x ≤ x2 then y1 + (y2 - y1) * (x - x1) / (x2 - x1)
    else np_interp x (x2 :: xs) (y2 :: ys)
  | [_], [y1] => y1
  | _, _ => 0

/-- Clamp x to the closed interval spanned by a nonempty increasing grid. -/
def clampToGrid (g : List ℚ) (x : ℚ) : ℚ := min (g.getLastD 0) (max g.headI x)

/-- Modelled from the spec: scipy.interpolate.RectBivariateSpline (the
2-D interpolation engine of section 4.1, not part of src/).  Per the spec
its evaluation is bounds-clamped: the query coordinates are clamped to the
rectangular grid before the fitted surface is evaluated, and the fitted
surface passes exactly through the tabulated values at the grid nodes.
The interior surface is modelled as the tensor-product piecewise-linear
interpolant; every property proved below uses only the grid-node values
and the coordinate clamping, on which this model and the bicubic spline
of the source agree. -/
def RectBivariateSpline (gu gv : List ℚ) (m : List (List ℚ)) (u v : ℚ) : ℚ :=
  let uc := clampToGrid gu u
  let vc := clampToGrid gv v
  np_interp uc gu (m.map fun row => np_interp vc gv row)

/-- The Cessna172 object: the per-step aerodynamic state and control
inputs written by the external integrator, and the recorded coefficient
and output fields mutated by the evaluation methods.  The fields CM and
CN do not exist until the first evaluation assigns them (the constructor
initializes the lowercase Cm and Cn instead), hence Option.  The
constant attributes mass, inertia, Sw, chord, span and control_limits
are kept as the top-level constants above. -/
structure Cessna172 where
  alpha_DEG : ℚ
  beta : ℚ
  alpha_dot : ℚ
  p : ℚ
  q : ℚ
  r : ℚ
  TAS : ℚ
  q_inf : ℚ
  delta_elev_DEG : ℚ
  delta_aile_DEG : ℚ
  delta_rud_RAD : ℚ
  delta_t : ℚ
  gravity_force : ℚ × ℚ × ℚ
  CL : ℚ
  CD : ℚ
  Cm : ℚ
  CY : ℚ
  Cl : ℚ
  Cn : ℚ
  CM : Option ℚ
  CN : Option ℚ
  Ct : ℚ
  total_forces : ℚ × ℚ × ℚ
  total_moments : ℚ × ℚ × ℚ
deriving DecidableEq

/-- Cessna172.__init__: every state and coefficient field starts at 0
(self.CL, self.CD, self.Cm = 0, 0, 0 and self.CY, self.Cl, self.Cn =
0, 0, 0); the attributes CM and CN are not assigned by the constructor. -/
def initCessna172 : Cessna172 :=
  { alpha_DEG := 0, beta := 0, alpha_dot := 0, p := 0, q := 0, r := 0
    TAS := 0, q_inf := 0
    delta_elev_DEG := 0, delta_aile_DEG := 0, delta_rud_RAD := 0, delta_t := 0
    gravity_force := (0, 0, 0)
    CL := 0, CD := 0, Cm := 0, CY := 0, Cl := 0, Cn := 0
    CM := none, CN := none, Ct := 0
    total_forces := (0, 0, 0), total_moments := (0, 0, 0) }

/-- Componentwise sum of 3-vectors (numpy array addition). -/
def add3 (a b : ℚ × ℚ × ℚ) : ℚ × ℚ × ℚ := (a.1 + b.1, a.2.1 + b.2.1, a.2.2 + b.2.2)

/-- Scalar times 3-vector (numpy scalar-array product). -/
def smul3 (k : ℚ) (a : ℚ × ℚ × ℚ) : ℚ × ℚ × ℚ := (k * a.1, k * a.2.1, k * a.2.2)

/-- Cessna172._calculate_aero_lon_forces_moments_coeffs: writes the
fields CL, CD, CM.  The local delta_elev and alpha_DEG of the source are
np.rad2deg of the stored radians; here the state already carries the
degree values.  The rate terms divide by V = TAS; the function is total
over the rationals and only ever consumed under a TAS ≠ 0 guard. -/
def calculate_aero_lon_forces_moments_coeffs (s : Cessna172) : Cessna172 :=
  let delta_elev := s.delta_elev_DEG
  let alpha_DEG := s.alpha_DEG
  let c := chord
  let V := s.TAS
  let CD_interp := np_interp alpha_DEG alpha_data CD_data
  let CD_delta_elev_interp := RectBivariateSpline delta_elev_data alpha_data CD_delta_elev_data
  let CL_interp := np_interp alpha_DEG alpha_data CL_data
  let CL_alphadot_interp := np_interp alpha_DEG alpha_data CL_alphadot_data
  let CL_q_interp := np_interp alpha_DEG alpha_data CL_q_data
  let CL_delta_elev_interp := np_interp delta_elev delta_elev_data CL_delta_elev_data
  let CM_interp := np_interp alpha_DEG alpha_data CM_data
  let CM_q_interp := np_interp alpha_DEG alpha_data CM_q_data
  let CM_alphadot_interp := np_interp alpha_DEG alpha_data CM_alphadot_data
  let CM_delta_elev_interp := np_interp delta_elev delta_elev_data CM_delta_elev_data
  { s with
    CL := CL_interp + CL_delta_elev_interp +
      (c / (2 * V)) * (CL_alphadot_interp * s.alpha_dot + CL_q_interp * s.q)
    CD := CD_interp + CD_delta_elev_interp delta_elev alpha_DEG
    CM := some (CM_interp + CM_delta_elev_interp +
      (c / (2 * V)) * (CM_q_interp * s.q + CM_alphadot_interp * s.alpha_dot)) }

/-- Cessna172._calculate_aero_lat_forces_moments_coeffs: writes the
fields CY, Cl, CN.  delta_rud_RAD is the rudder deflection in radians,
exactly as the source uses it at lines 237-239 (the degree conversion
delta_rud of line 213 is computed but never used). -/
def calculate_aero_lat_forces_moments_coeffs (s : Cessna172) : Cessna172 :=
  let delta_aile := s.delta_aile_DEG
  let delta_rud_RAD := s.delta_rud_RAD
  let alpha_DEG := s.alpha_DEG
  let b := span
  let V := s.TAS
  let CY_beta_interp := np_interp alpha_DEG alpha_data CY_beta_data
  let CY_p_interp := np_interp alpha_DEG alpha_data CY_p_data
  let CY_r_interp := np_interp alpha_DEG alpha_data CY_r_data
  let CY_delta_rud_interp := np_interp alpha_DEG alpha_data CY_delta_rud_data
  let Cl_beta_interp := np_interp alpha_DEG alpha_data Cl_beta_data
  let Cl_p_interp := np_interp alpha_DEG alpha_data Cl_p_data
  let Cl_r_interp := np_interp alpha_DEG alpha_data Cl_r_data
  let Cl_delta_rud_interp := np_interp alpha_DEG alpha_data Cl_delta_rud_data
  let Cl_delta_aile_interp := np_interp delta_aile delta_aile_data Cl_delta_aile_data
  let CN_beta_interp := np_interp alpha_DEG alpha_data CN_beta_data
  let CN_p_interp := np_interp alpha_DEG alpha_data CN_p_data
  let CN_r_interp := np_interp alpha_DEG alpha_data CN_r_data
  let CN_delta_rud_interp := np_interp alpha_DEG alpha_data CN_delta_rud_data
  let CN_delta_aile_interp := RectBivariateSpline delta_aile_data alpha_data CN_delta_aile_data
  { s with
    CY := CY_beta_interp * s.beta + CY_delta_rud_interp * delta_rud_RAD +
      (b / (2 * V)) * (CY_p_interp * s.p + CY_r_interp * s.r)
    Cl := Cl_beta_interp * s.beta + Cl_delta_aile_interp + Cl_delta_rud_interp * delta_rud_RAD +
      (b / (2 * V)) * (Cl_p_interp * s.p + Cl_r_interp * s.r)
    CN := some (CN_beta_interp * s.beta + CN_delta_aile_interp delta_aile alpha_DEG +
      CN_delta_rud_interp * delta_rud_RAD +
      (b / (2 * V)) * (CN_p_interp * s.p + CN_r_interp * s.r)) }

/-- Cessna172._calculate_aero_forces_moments: runs the two coefficient
passes on the instance and dimensionalizes.  After the passes CM and CN
are always assigned, so the Option is read with getD. -/
def calculate_aero_forces_moments (s : Cessna172) :
    Cessna172 × (ℚ × ℚ × ℚ × ℚ × ℚ × ℚ) :=
  let q := s.q_inf
  let s1 := calculate_aero_lon_forces_moments_coeffs s
  let s2 := calculate_aero_lat_forces_moments_coeffs s1
  let L := q * Sw * s2.CL
  let D := q * Sw * s2.CD
  let Y := q * Sw * s2.CY
  let l := q * Sw * span * s2.Cl
  let m := q * Sw * chord * s2.CM.getD 0
  let n := q * Sw * span * s2.CN.getD 0
  (s2, (L, D, Y, l, m, n))

/-- Cessna172._calculate_thrust_forces_moments: Ct = 0.031 * delta_t,
thrust force along the body x-axis only. -/
def calculate_thrust_forces_moments (s : Cessna172) : Cessna172 × (ℚ × ℚ × ℚ) :=
  let q := s.q_inf
  let Ct := (0.031 : ℚ) * s.delta_t
  ({ s with Ct := Ct }, (q * Sw * Ct, 0, 0))

/-- Cessna172.calculate_forces_and_moments: thrust, then aero, then
total_forces = 10 * Ft + Fg + Fa with Fa = (-D, Y, -L), and
total_moments = (l, m, n).  The aero coefficient passes divide by TAS
(the c/(2V) and b/(2V) rate factors), so at TAS = 0 the source raises a
Python division-by-zero; that failure is surfaced here as none, in which
case the partially mutated instance is discarded. -/
def calculate_forces_and_moments (s : Cessna172) :
    Option (Cessna172 × ((ℚ × ℚ × ℚ) × (ℚ × ℚ × ℚ))) :=
  if s.TAS = 0 then none else
  let t := calculate_thrust_forces_moments s
  let a := calculate_aero_forces_moments t.1
  let Ft := t.2
  let L := a.2.1
  let D := a.2.2.1
  let Y := a.2.2.2.1
  let l := a.2.2.2.2.1
  let m := a.2.2.2.2.2.1
  let n := a.2.2.2.2.2.2
  let Fg := s.gravity_force
  let Fa := (-D, Y, -L)
  let total_forces := add3 (add3 (smul3 10 Ft) Fg) Fa
  let total_moments := (l, m, n)
  some ({ a.1 with total_forces := total_forces, total_moments := total_moments },
        (total_forces, total_moments))

/-- The per-step inputs the external integrator writes onto the aircraft
instance before one evaluation (spec sections 3 and 6). -/
structure ExternalState where
  alpha_DEG : ℚ
  beta : ℚ
  alpha_dot : ℚ
  p : ℚ
  q : ℚ
  r : ℚ
  TAS : ℚ
  q_inf : ℚ
  delta_elev_DEG : ℚ
  delta_aile_DEG : ℚ
  delta_rud_RAD : ℚ
  delta_t : ℚ
  gravity_force : ℚ × ℚ × ℚ
deriving DecidableEq

/-- Overwrite the integrator-owned state and control fields of the
instance, leaving the recorded coefficient and output fields alone. -/
def set_state (o : Cessna172) (e : ExternalState) : Cessna172 :=
  { o with
    alpha_DEG := e.alpha_DEG, beta := e.beta, alpha_dot := e.alpha_dot
    p := e.p, q := e.q, r := e.r, TAS := e.TAS, q_inf := e.q_inf
    delta_elev_DEG := e.delta_elev_DEG, delta_aile_DEG := e.delta_aile_DEG
    delta_rud_RAD := e.delta_rud_RAD, delta_t := e.delta_t
    gravity_force := e.gravity_force }

/-- A sequence of evaluations: before each one the integrator sets the
state, then calculate_forces_and_moments runs, mutating the instance. -/
def run (o : Cessna172) : List ExternalState → Option Cessna172
  | [] => some o
  | e :: es =>
    match calculate_forces_and_moments (set_state o e) with
    | none => none
    | some x => run x.1 es

/-- The zero state of the spec's zero-state scenario, at airspeed V. -/
def zeroState (V : ℚ) : Cessna172 := { initCessna172 with TAS := V }

/-- One-step unfolding of np_interp on a grid with at least two points. -/
theorem np_interp_cons_cons (x x1 x2 y1 y2 : ℚ) (xs ys : List ℚ) :
    np_interp x (x1 :: x2 :: xs) (y1 :: y2 :: ys) =
      if x ≤ x1 then y1
      else if x ≤ x2 then y1 + (y2 - y1) * (x - x1) / (x2 - x1)
      else np_interp x (x2 :: xs) (y2 :: ys) := rfl

/-- np_interp on a one-point grid is the single table value. -/
theorem np_interp_singleton (x x1 y1 : ℚ) : np_interp x [x1] [y1] = y1 := rfl

/-- getLastD of a nonempty list does not depend on the fallback. -/
theorem getLastD_irrel (a : ℚ) (l : List ℚ) (d1 d2 : ℚ) :
    (a :: l).getLastD d1 = (a :: l).getLastD d2 :=
  match l with
  | [] => rfl
  | b :: l => (List.getLastD_cons d1 a (b :: l)).trans (List.getLastD_cons d2 a (b :: l)).symm

/-- getLastD of a nonempty list is one of its elements. -/
theorem getLastD_cons_mem (a : ℚ) (l : List ℚ) (d : ℚ) : (a :: l).getLastD d ∈ a :: l := by
  rw [List.getLastD_cons]
  exact List.getLastD_mem_cons l a

/-- Flat extrapolation of np_interp below the grid: any query at or below
the first grid point returns the first table value. -/
theorem np_interp_below : ∀ (xp fp : List ℚ), xp.length = fp.length → xp ≠ [] →
    ∀ x : ℚ, x ≤ xp.headI → np_interp x xp fp = fp.headI
  | [], _, _, hne, _, _ => absurd rfl hne
  | [x1], [y1], _, _, x, hx => by simp [np_interp]
  | [x1], [], hlen, _, _, _ => by simp at hlen
  | [x1], y1 :: y2 :: ys, hlen, _, _, _ => by simp at hlen
  | x1 :: x2 :: xs, [], hlen, _, _, _ => by simp at hlen
  | x1 :: x2 :: xs, [y1], hlen, _, _, _ => by simp at hlen
  | x1 :: x2 :: xs, y1 :: y2 :: ys, hlen, hne, x, hx => by
    simp only [List.headI] at hx ⊢
    rw [np_interp_cons_cons, if_pos hx]

/-- Flat extrapolation of np_interp above the grid: any query at or above
the last grid point returns the last table value. -/
theorem np_interp_above : ∀ (xp fp : List ℚ), List.Pairwise (· < ·) xp →
    xp.length = fp.length → xp ≠ [] →
    ∀ x : ℚ, xp.getLastD 0 ≤ x → np_interp x xp fp = fp.getLastD 0
  | [], _, _, _, hne, _, _ => absurd rfl hne
  | [x1], [y1], _, _, _, x, hx => by simp [np_interp]
  | [x1], [], _, hlen, _, _, _ => by simp at hlen
  | [x1], y1 :: y2 :: ys, _, hlen, _, _, _ => by simp at hlen
  | x1 :: x2 :: xs, [], _, hlen, _, _, _ => by simp at hlen
  | x1 :: x2 :: xs, [y1], _, hlen, _, _, _ => by simp at hlen
  | x1 :: x2 :: xs, y1 :: y2 :: ys, hp, hlen, hne, x, hx => by
    rw [List.getLastD_cons] at hx
    rw [List.getLastD_cons]
    have hx' : (x2 :: xs).getLastD 0 ≤ x := by
      rw [getLastD_irrel x2 xs 0 x1]; exact hx
    have hmem : (x2 :: xs).getLastD 0 ∈ x2 :: xs := getLastD_cons_mem x2 xs 0
    have h1 : x1 < (x2 :: xs).getLastD 0 := (List.pairwise_cons.mp hp).1 _ hmem
    have hx1 : ¬ x ≤ x1 := not_le.mpr (lt_of_lt_of_le h1 hx')
    rw [np_interp_cons_cons, if_neg hx1]
    cases xs with
    | nil =>
      have hx2le : x2 ≤ x := by simpa [List.getLastD] using hx'
      have h12 : x1 < x2 := by simpa [List.getLastD] using h1
      cases ys with
      | nil =>
        by_cases h2 : x ≤ x2
        · have hxe : x = x2 := le_antisymm h2 hx2le
          rw [if_pos h2, hxe, mul_div_assoc,
            div_self (sub_ne_zero.mpr (ne_of_gt h12)), mul_one]
          simp [List.getLastD]
        · rw [if_neg h2, np_interp_singleton]
          simp [List.getLastD]
      | cons y3 ys' => simp at hlen
    | cons x3 xs' =>
      cases ys with
      | nil => simp at hlen
      | cons y3 ys' =>
        have hx2' : (x3 :: xs').getLastD 0 ≤ x := by
          rw [List.getLastD_cons] at hx'
          rw [getLastD_irrel x3 xs' 0 x2]; exact hx'
        have hp2 : List.Pairwise (· < ·) (x2 :: x3 :: xs') := (List.pairwise_cons.mp hp).2
        have hmem2 : (x3 :: xs').getLastD 0 ∈ x3 :: xs' := getLastD_cons_mem x3 xs' 0
        have h2l : x2 < (x3 :: xs').getLastD 0 := (List.pairwise_cons.mp hp2).1 _ hmem2
        have hx2 : ¬ x ≤ x2 := not_le.mpr (lt_of_lt_of_le h2l hx2')
        rw [if_neg hx2]
        have ih := np_interp_above (x2 :: x3 :: xs') (y2 :: y3 :: ys') hp2
          (by simpa using hlen) (by simp) x (by
            rw [List.getLastD_cons, getLastD_irrel x3 xs' x2 0]
            exact hx2')
        rw [ih, List.getLastD_cons, List.getLastD_cons y1 y2 (y3 :: ys')]

/-- Node exactness of np_interp: a query equal to the i-th grid point of a
strictly increasing grid returns exactly the i-th table value. -/
theorem np_interp_node : ∀ (xp fp : List ℚ), List.Pairwise (· < ·) xp →
    xp.length = fp.length → ∀ i : ℕ, i < xp.length →
    np_interp (xp.getD i 0) xp fp = fp.getD i 0
  | [], _, _, _, i, hi => absurd hi (by simp)
  | [x1], [y1], _, _, 0, _ => np_interp_singleton x1 x1 y1
  | [x1], [y1], _, _, i + 1, hi => absurd hi (by simp)
  | [x1], [], _, hlen, _, _ => by simp at hlen
  | [x1], y1 :: y2 :: ys, _, hlen, _, _ => by simp at hlen
  | x1 :: x2 :: xs, [], _, hlen, _, _ => by simp at hlen
  | x1 :: x2 :: xs, [y1], _, hlen, _, _ => by simp at hlen
  | x1 :: x2 :: xs, y1 :: y2 :: ys, hp, hlen, 0, hi => by
    simp only [List.getD_cons_zero]
    rw [np_interp_cons_cons, if_pos le_rfl]
  | x1 :: x2 :: xs, y1 :: y2 :: ys, hp, hlen, 1, hi => by
    simp only [List.getD_cons_succ, List.getD_cons_zero]
    have h12 : x1 < x2 := (List.pairwise_cons.mp hp).1 x2 (by simp)
    rw [np_interp_cons_cons, if_neg (not_le.mpr h12), if_pos le_rfl,
      mul_div_assoc, div_self (sub_ne_zero.mpr (ne_of_gt h12)), mul_one]
    ring
  | x1 :: x2 :: xs, y1 :: y2 :: ys, hp, hlen, k + 2, hi => by
    simp only [List.getD_cons_succ]
    have hklen : k < xs.length := by simpa using hi
    have hxmem : xs.getD k 0 ∈ xs := by
      rw [List.getD_eq_getElem?_getD, List.getElem?_eq_getElem hklen]
      exact List.getElem_mem hklen
    have hx1 : x1 < xs.getD k 0 :=
      (List.pairwise_cons.mp hp).1 _ (List.mem_cons_of_mem x2 hxmem)
    have hp2 : List.Pairwise (· < ·) (x2 :: xs) := (List.pairwise_cons.mp hp).2
    have hx2 : x2 < xs.getD k 0 := (List.pairwise_cons.mp hp2).1 _ hxmem
    rw [np_interp_cons_cons, if_neg (not_le.mpr hx1), if_neg (not_le.mpr hx2)]
    have ih := np_interp_node (x2 :: xs) (y2 :: ys) hp2 (by simpa using hlen)
      (k + 1) (by simpa using hi)
    simpa using ih

/-- The clamped coordinate stays at or above the lower grid bound. -/
theorem clampToGrid_lower (g : List ℚ) (h : g.headI ≤ g.getLastD 0) (x : ℚ) :
    g.headI ≤ clampToGrid g x :=
  le_min h (le_max_left _ _)

/-- The clamped coordinate stays at or below the upper grid bound. -/
theorem clampToGrid_upper (g : List ℚ) (x : ℚ) : clampToGrid g x ≤ g.getLastD 0 :=
  min_le_left _ _

/-- Clamping is idempotent. -/
theorem clampToGrid_idem (g : List ℚ) (h : g.headI ≤ g.getLastD 0) (x : ℚ) :
    clampToGrid g (clampToGrid g x) = clampToGrid g x := by
  unfold clampToGrid
  rw [max_eq_right (le_min h (le_max_left _ _)), min_eq_right (min_le_left _ _)]

/-- The clamped coordinate is the point of the grid interval nearest to
the query. -/
theorem clampToGrid_nearest (g : List ℚ) (h : g.headI ≤ g.getLastD 0) (x y : ℚ)
    (hy1 : g.headI ≤ y) (hy2 : y ≤ g.getLastD 0) :
    |x - clampToGrid g x| ≤ |x - y| := by
  unfold clampToGrid
  rcases le_total x g.headI with hxlo | hxlo
  · rw [max_eq_left hxlo, min_eq_right h]
    have h1 : |x - g.headI| = g.headI - x := by
      rw [abs_sub_comm, abs_of_nonneg (by linarith)]
    rw [h1]
    calc g.headI - x ≤ y - x := by linarith
      _ ≤ |y - x| := le_abs_self _
      _ = |x - y| := abs_sub_comm y x
  · rcases le_total x (g.getLastD 0) with hxhi | hxhi
    · rw [max_eq_right hxlo, min_eq_right hxhi, sub_self, abs_zero]
      exact abs_nonneg _
    · rw [max_eq_right hxlo, min_eq_left hxhi]
      rw [abs_of_nonneg (by linarith : (0 : ℚ) ≤ x - g.getLastD 0)]
      calc x - g.getLastD 0 ≤ x - y := by linarith
        _ ≤ |x - y| := le_abs_self _

/-- The 2-D evaluation equals its own evaluation at the clamped query. -/
theorem RectBivariateSpline_eval_clamped (gu gv : List ℚ) (m : List (List ℚ)) (u v : ℚ)
    (hu : gu.headI ≤ gu.getLastD 0) (hv : gv.headI ≤ gv.getLastD 0) :
    RectBivariateSpline gu gv m u v =
      RectBivariateSpline gu gv m (clampToGrid gu u) (clampToGrid gv v) := by
  unfold RectBivariateSpline
  rw [clampToGrid_idem gu hu, clampToGrid_idem gv hv]

/-- Table lookup at the zero state: CL at the grid node alpha = 0. -/
theorem lk_CL0 : np_interp 0 alpha_data CL_data = 0.148 := by
  norm_num [np_interp, alpha_data, CL_data]

/-- Table lookup at the zero state: CD at the grid node alpha = 0. -/
theorem lk_CD0 : np_interp 0 alpha_data CD_data = 0.03 := by
  norm_num [np_interp, alpha_data, CD_data]

/-- Table lookup at the zero state: CM at the grid node alpha = 0. -/
theorem lk_CM0 : np_interp 0 alpha_data CM_data = 0.0075 := by
  norm_num [np_interp, alpha_data, CM_data]

/-- Table lookup at the zero state: elevator lift increment at zero deflection. -/
theorem lk_CLde0 : np_interp 0 delta_elev_data CL_delta_elev_data = 0 := by
  norm_num [np_interp, delta_elev_data, CL_delta_elev_data]

/-- Table lookup at the zero state: elevator pitching-moment increment at
zero deflection is the tabulated -0.0002, not 0. -/
theorem lk_CMde0 : np_interp 0 delta_elev_data CM_delta_elev_data = -0.0002 := by
  norm_num [np_interp, delta_elev_data, CM_delta_elev_data]

/-- Lookup in the 2-D elevator-drag table at the grid node (0, 0), which
sits on the all-zero row. -/
theorem lk_CDde00 : RectBivariateSpline delta_elev_data alpha_data CD_delta_elev_data 0 0 = 0 := by
  norm_num [RectBivariateSpline, clampToGrid, min_def, max_def, np_interp,
    delta_elev_data, alpha_data, CD_delta_elev_data]

/-- Lookup in the 2-D aileron yawing-moment table at the grid node (-5, 0). -/
theorem lk_CNda_m5 :
    RectBivariateSpline delta_aile_data alpha_data CN_delta_aile_data (-5) 0 = 0.0007675 := by
  norm_num [RectBivariateSpline, clampToGrid, min_def, max_def, np_interp,
    delta_aile_data, alpha_data, CN_delta_aile_data]

/-- Lookup in the 2-D aileron yawing-moment table at the grid node (5, 0). -/
theorem lk_CNda_p5 :
    RectBivariateSpline delta_aile_data alpha_data CN_delta_aile_data 5 0 = -0.000384 := by
  norm_num [RectBivariateSpline, clampToGrid, min_def, max_def, np_interp,
    delta_aile_data, alpha_data, CN_delta_aile_data]

/-- Lookup in the 2-D aileron yawing-moment table at the grid node (-2.5, 0). -/
theorem lk_CNda_m25 :
    RectBivariateSpline delta_aile_data alpha_data CN_delta_aile_data (-2.5) 0 = 0.000384 := by
  norm_num [RectBivariateSpline, clampToGrid, min_def, max_def, np_interp,
    delta_aile_data, alpha_data, CN_delta_aile_data]

/-- C1 counterexample: at the zero state (angle of attack, sideslip, rates,
angle-of-attack rate and all controls zero) with airspeed 50, one evaluation
of the longitudinal coefficient model yields CM = 0.0073 — the alpha = 0
entry 0.0075 of CM_data plus the zero-deflection entry -0.0002 of
CM_delta_elev_data — and not the claimed -0.0248 (which is the alpha = 2.5
entry of CM_data). -/
theorem C1_counterexample :
    (calculate_aero_lon_forces_moments_coeffs (zeroState 50)).CM = some 0.0073 ∧
    (0.0073 : ℚ) ≠ -0.0248 := by
  refine ⟨?_, by norm_num⟩
  simp only [calculate_aero_lon_forces_moments_coeffs, zeroState, initCessna172]
  rw [lk_CM0, lk_CMde0]
  norm_num

/-- C1 amended: for the zero state and any airspeed V > 0, one evaluation of
the longitudinal coefficient model yields exactly CL = 0.148, CD = 0.03 and
CM = 0.0073 (= 0.0075 from the alpha table at alpha = 0 plus -0.0002 from the
elevator table at zero deflection). -/
theorem C1_amended (V : ℚ) (hV : 0 < V) :
    (calculate_aero_lon_forces_moments_coeffs (zeroState V)).CL = 0.148 ∧
    (calculate_aero_lon_forces_moments_coeffs (zeroState V)).CD = 0.03 ∧
    (calculate_aero_lon_forces_moments_coeffs (zeroState V)).CM = some 0.0073 := by
  refine ⟨?_, ?_, ?_⟩ <;>
    simp only [calculate_aero_lon_forces_moments_coeffs, zeroState, initCessna172]
  · rw [lk_CL0, lk_CLde0]; norm_num
  · rw [lk_CD0, lk_CDde00]; norm_num
  · rw [lk_CM0, lk_CMde0]; norm_num

/-- C1 witness: the amended zero-state scenario at the concrete airspeed 3. -/
theorem C1_witness :
    (calculate_aero_lon_forces_moments_coeffs (zeroState 3)).CL = 0.148 ∧
    (calculate_aero_lon_forces_moments_coeffs (zeroState 3)).CD = 0.03 ∧
    (calculate_aero_lon_forces_moments_coeffs (zeroState 3)).CM = some 0.0073 :=
  C1_amended 3 (by norm_num)

/-- C2: the code performs no airspeed validation.  At the failing input
TAS = -10 (all else the zero state) the evaluation succeeds and returns a
result, contradicting the claim that every V ≤ 0 fails with an InvalidState
condition; at TAS = 0 the evaluation fails, but only with the raw
division-by-zero of the rate terms (modelled as none), not a validation. -/
theorem C2_code_bug :
    (calculate_forces_and_moments (zeroState (-10))).isSome = true ∧
    calculate_forces_and_moments (zeroState 0) = none := by
  constructor
  · norm_num [calculate_forces_and_moments, zeroState, initCessna172]
  · norm_num [calculate_forces_and_moments, zeroState, initCessna172]

/-- C3: for the two 2-D tables of the model (elevator drag and aileron
yawing moment), a query outside the rectangular grid is evaluated with its
coordinates clamped to the grid bounds: the returned coefficient equals the
evaluation at the clamped query, the clamped query lies inside the grid
rectangle, and along each axis the clamped coordinate is the nearest
in-grid point to the query. -/
theorem C3_thm (gu gv : List ℚ) (m : List (List ℚ)) (u v : ℚ)
    (htab : gu = delta_elev_data ∧ gv = alpha_data ∧ m = CD_delta_elev_data ∨
            gu = delta_aile_data ∧ gv = alpha_data ∧ m = CN_delta_aile_data)
    (hout : u < gu.headI ∨ gu.getLastD 0 < u ∨ v < gv.headI ∨ gv.getLastD 0 < v) :
    RectBivariateSpline gu gv m u v =
      RectBivariateSpline gu gv m (clampToGrid gu u) (clampToGrid gv v) ∧
    gu.headI ≤ clampToGrid gu u ∧ clampToGrid gu u ≤ gu.getLastD 0 ∧
    gv.headI ≤ clampToGrid gv v ∧ clampToGrid gv v ≤ gv.getLastD 0 ∧
    (∀ y, gu.headI ≤ y → y ≤ gu.getLastD 0 → |u - clampToGrid gu u| ≤ |u - y|) ∧
    (∀ y, gv.headI ≤ y → y ≤ gv.getLastD 0 → |v - clampToGrid gv v| ≤ |v - y|) := by
  have hu : gu.headI ≤ gu.getLastD 0 := by
    rcases htab with ⟨h1, _, _⟩ | ⟨h1, _, _⟩ <;> subst h1 <;>
      norm_num [delta_elev_data, delta_aile_data, List.getLastD]
  have hv : gv.headI ≤ gv.getLastD 0 := by
    rcases htab with ⟨_, h2, _⟩ | ⟨_, h2, _⟩ <;> subst h2 <;>
      norm_num [alpha_data, List.getLastD]
  exact ⟨RectBivariateSpline_eval_clamped gu gv m u v hu hv,
    clampToGrid_lower gu hu u, clampToGrid_upper gu u,
    clampToGrid_lower gv hv v, clampToGrid_upper gv v,
    fun y h1 h2 => clampToGrid_nearest gu hu u y h1 h2,
    fun y h1 h2 => clampToGrid_nearest gv hv v y h1 h2⟩

/-- C3 witness: the elevator-drag table queried at deflection 100, far above
its 28-degree grid bound, with alpha = 0 in grid. -/
theorem C3_witness :
    RectBivariateSpline delta_elev_data alpha_data CD_delta_elev_data 100 0 =
      RectBivariateSpline delta_elev_data alpha_data CD_delta_elev_data
        (clampToGrid delta_elev_data 100) (clampToGrid alpha_data 0) ∧
    delta_elev_data.headI ≤ clampToGrid delta_elev_data 100 ∧
    clampToGrid delta_elev_data 100 ≤ delta_elev_data.getLastD 0 ∧
    alpha_data.headI ≤ clampToGrid alpha_data 0 ∧
    clampToGrid alpha_data 0 ≤ alpha_data.getLastD 0 ∧
    (∀ y, delta_elev_data.headI ≤ y → y ≤ delta_elev_data.getLastD 0 →
      |(100 : ℚ) - clampToGrid delta_elev_data 100| ≤ |100 - y|) ∧
    (∀ y, alpha_data.headI ≤ y → y ≤ alpha_data.getLastD 0 →
      |(0 : ℚ) - clampToGrid alpha_data 0| ≤ |0 - y|) :=
  C3_thm delta_elev_data alpha_data CD_delta_elev_data 100 0
    (Or.inl ⟨rfl, rfl, rfl⟩)
    (Or.inr (Or.inl (by norm_num [delta_elev_data, List.getLastD])))

/-- C9: 1-D table lookups return exactly the tabulated value at any grid
node of a strictly increasing grid, the first table value below the grid,
the last table value above the grid (flat extrapolation, not linear), and
in particular alpha = -30 returns the boundary drag value CD = 0.044. -/
theorem C9_thm :
    (∀ (xp fp : List ℚ), List.Pairwise (· < ·) xp → xp.length = fp.length →
      ∀ i : ℕ, i < xp.length → np_interp (xp.getD i 0) xp fp = fp.getD i 0) ∧
    (∀ (xp fp : List ℚ), xp.length = fp.length → xp ≠ [] →
      ∀ x : ℚ, x ≤ xp.headI → np_interp x xp fp = fp.headI) ∧
    (∀ (xp fp : List ℚ), List.Pairwise (· < ·) xp → xp.length = fp.length → xp ≠ [] →
      ∀ x : ℚ, xp.getLastD 0 ≤ x → np_interp x xp fp = fp.getLastD 0) ∧
    np_interp (-30) alpha_data CD_data = 0.044 :=
  ⟨np_interp_node, np_interp_below, np_interp_above,
    by norm_num [np_interp, alpha_data, CD_data]⟩

/-- C9 witness: node exactness at the alpha = 0 node of the drag table, and
flat extrapolation of the lift table at alpha = -100 and alpha = 100. -/
theorem C9_witness :
    np_interp (alpha_data.getD 3 0) alpha_data CD_data = CD_data.getD 3 0 ∧
    np_interp (-100) alpha_data CL_data = CL_data.headI ∧
    np_interp 100 alpha_data CL_data = CL_data.getLastD 0 :=
  ⟨C9_thm.1 alpha_data CD_data (by norm_num [alpha_data])
      (by norm_num [alpha_data, CD_data]) 3 (by norm_num [alpha_data]),
   C9_thm.2.1 alpha_data CL_data (by norm_num [alpha_data, CL_data])
      (by simp [alpha_data]) (-100) (by norm_num [alpha_data, List.headI]),
   C9_thm.2.2.1 alpha_data CL_data (by norm_num [alpha_data])
      (by norm_num [alpha_data, CL_data]) (by simp [alpha_data]) 100
      (by norm_num [alpha_data, List.getLastD])⟩

/-- A state that differs from the zero state only in airspeed and aileron
deflection (degrees): sideslip, rudder, rates and all else stay zero. -/
def aileState (V da : ℚ) : Cessna172 :=
  { initCessna172 with TAS := V, delta_aile_DEG := da }

/-- Lookup in the 2-D aileron yawing-moment table at the grid node (0, 0),
which sits on the all-zero row. -/
theorem lk_CNda00 :
    RectBivariateSpline delta_aile_data alpha_data CN_delta_aile_data 0 0 = 0 := by
  norm_num [RectBivariateSpline, clampToGrid, min_def, max_def, np_interp,
    delta_aile_data, alpha_data, CN_delta_aile_data]

/-- Table lookup: aileron rolling-moment increment at zero deflection. -/
theorem lk_Clda0 : np_interp 0 delta_aile_data Cl_delta_aile_data = 0 := by
  norm_num [np_interp, delta_aile_data, Cl_delta_aile_data]

/-- C4 counterexample: with sideslip, rudder and rates zero, at the grid
angle of attack alpha = 0 and airspeed 50, CN at aileron deflection -5
degrees is the tabulated 0.0007675, while the negative of CN at +5 degrees
is 0.000384: the claimed exact antisymmetry between -5 and +5 degrees
fails, because the deflection grid (-15..20 degrees) is asymmetric and the
tabulated rows are only approximately mirrored. -/
theorem C4_counterexample :
    (calculate_aero_lat_forces_moments_coeffs (aileState 50 (-5))).CN = some 0.0007675 ∧
    (calculate_aero_lat_forces_moments_coeffs (aileState 50 5)).CN = some (-0.000384) ∧
    (0.0007675 : ℚ) ≠ -(-0.000384) := by
  refine ⟨?_, ?_, by norm_num⟩ <;>
    simp only [calculate_aero_lat_forces_moments_coeffs, aileState, initCessna172]
  · rw [lk_CNda_m5]; norm_num
  · rw [lk_CNda_p5]; norm_num

/-- C4 amended: the exact negation pairing the table does satisfy at the
alpha = 0 node pairs deflection -2.5 degrees with +5 degrees (rows 3 and 5
of CN_delta_aile_data are exact negatives in that column): for every
airspeed V > 0, with sideslip, rudder and rates zero, CN at aileron
deflection -2.5 degrees equals the exact numeric negative of CN at +5
degrees. -/
theorem C4_amended (V : ℚ) (hV : 0 < V) :
    (calculate_aero_lat_forces_moments_coeffs (aileState V (-2.5))).CN = some 0.000384 ∧
    (calculate_aero_lat_forces_moments_coeffs (aileState V 5)).CN = some (-0.000384) ∧
    (calculate_aero_lat_forces_moments_coeffs (aileState V (-2.5))).CN.getD 0 =
      -((calculate_aero_lat_forces_moments_coeffs (aileState V 5)).CN.getD 0) := by
  have h1 : (calculate_aero_lat_forces_moments_coeffs (aileState V (-2.5))).CN =
      some 0.000384 := by
    simp only [calculate_aero_lat_forces_moments_coeffs, aileState, initCessna172]
    rw [lk_CNda_m25]; norm_num
  have h2 : (calculate_aero_lat_forces_moments_coeffs (aileState V 5)).CN =
      some (-0.000384) := by
    simp only [calculate_aero_lat_forces_moments_coeffs, aileState, initCessna172]
    rw [lk_CNda_p5]; norm_num
  exact ⟨h1, h2, by rw [h1, h2]; norm_num⟩

/-- C4 witness: the amended antisymmetry at the concrete airspeed 50. -/
theorem C4_witness :
    (calculate_aero_lat_forces_moments_coeffs (aileState 50 (-2.5))).CN = some 0.000384 ∧
    (calculate_aero_lat_forces_moments_coeffs (aileState 50 5)).CN = some (-0.000384) ∧
    (calculate_aero_lat_forces_moments_coeffs (aileState 50 (-2.5))).CN.getD 0 =
      -((calculate_aero_lat_forces_moments_coeffs (aileState 50 5)).CN.getD 0) :=
  C4_amended 50 (by norm_num)

/-- C6: the longitudinal model combines its lookups exactly as
CL = CL(alpha) + CL_de(de) + (c/(2V)) (CL_alphadot alphadot + CL_q q),
CD = CD(alpha) + CD_de(de, alpha) (2-D), and
CM = CM(alpha) + CM_de(de) + (c/(2V)) (CM_q q + CM_alphadot alphadot),
with the static and rate derivatives interpolated on the angle-of-attack
grid and the control terms on the elevator-deflection grid. -/
theorem C6_thm (s : Cessna172) (hV : 0 < s.TAS) :
    (calculate_aero_lon_forces_moments_coeffs s).CL =
      np_interp s.alpha_DEG alpha_data CL_data +
      np_interp s.delta_elev_DEG delta_elev_data CL_delta_elev_data +
      (chord / (2 * s.TAS)) *
        (np_interp s.alpha_DEG alpha_data CL_alphadot_data * s.alpha_dot +
         np_interp s.alpha_DEG alpha_data CL_q_data * s.q) ∧
    (calculate_aero_lon_forces_moments_coeffs s).CD =
      np_interp s.alpha_DEG alpha_data CD_data +
      RectBivariateSpline delta_elev_data alpha_data CD_delta_elev_data
        s.delta_elev_DEG s.alpha_DEG ∧
    (calculate_aero_lon_forces_moments_coeffs s).CM =
      some (np_interp s.alpha_DEG alpha_data CM_data +
        np_interp s.delta_elev_DEG delta_elev_data CM_delta_elev_data +
        (chord / (2 * s.TAS)) *
          (np_interp s.alpha_DEG alpha_data CM_q_data * s.q +
           np_interp s.alpha_DEG alpha_data CM_alphadot_data * s.alpha_dot)) :=
  ⟨rfl, rfl, rfl⟩

/-- C6 witness: the longitudinal combination at the zero state, airspeed 50. -/
theorem C6_witness :
    (calculate_aero_lon_forces_moments_coeffs (zeroState 50)).CL =
      np_interp (zeroState 50).alpha_DEG alpha_data CL_data +
      np_interp (zeroState 50).delta_elev_DEG delta_elev_data CL_delta_elev_data +
      (chord / (2 * (zeroState 50).TAS)) *
        (np_interp (zeroState 50).alpha_DEG alpha_data CL_alphadot_data * (zeroState 50).alpha_dot +
         np_interp (zeroState 50).alpha_DEG alpha_data CL_q_data * (zeroState 50).q) :=
  (C6_thm (zeroState 50) (by norm_num [zeroState, initCessna172])).1

/-- C7: the lateral-directional model computes
CY = CY_beta(alpha) beta + CY_dr(alpha) dr + (b/2V)(CY_p(alpha) p + CY_r(alpha) r),
Cl = Cl_beta(alpha) beta + Cl_da(da) + Cl_dr(alpha) dr + (b/2V)(Cl_p(alpha) p + Cl_r(alpha) r),
CN = CN_beta(alpha) beta + CN_da(da, alpha) (2-D) + CN_dr(alpha) dr + (b/2V)(CN_p(alpha) p + CN_r(alpha) r),
where dr is the rudder deflection in radians; in particular the sideslip
and rudder contributions to CY and CN are exactly linear in beta and dr. -/
theorem C7_thm (s : Cessna172) (hV : 0 < s.TAS) :
    (calculate_aero_lat_forces_moments_coeffs s).CY =
      np_interp s.alpha_DEG alpha_data CY_beta_data * s.beta +
      np_interp s.alpha_DEG alpha_data CY_delta_rud_data * s.delta_rud_RAD +
      (span / (2 * s.TAS)) *
        (np_interp s.alpha_DEG alpha_data CY_p_data * s.p +
         np_interp s.alpha_DEG alpha_data CY_r_data * s.r) ∧
    (calculate_aero_lat_forces_moments_coeffs s).Cl =
      np_interp s.alpha_DEG alpha_data Cl_beta_data * s.beta +
      np_interp s.delta_aile_DEG delta_aile_data Cl_delta_aile_data +
      np_interp s.alpha_DEG alpha_data Cl_delta_rud_data * s.delta_rud_RAD +
      (span / (2 * s.TAS)) *
        (np_interp s.alpha_DEG alpha_data Cl_p_data * s.p +
         np_interp s.alpha_DEG alpha_data Cl_r_data * s.r) ∧
    (calculate_aero_lat_forces_moments_coeffs s).CN =
      some (np_interp s.alpha_DEG alpha_data CN_beta_data * s.beta +
        RectBivariateSpline delta_aile_data alpha_data CN_delta_aile_data
          s.delta_aile_DEG s.alpha_DEG +
        np_interp s.alpha_DEG alpha_data CN_delta_rud_data * s.delta_rud_RAD +
        (span / (2 * s.TAS)) *
          (np_interp s.alpha_DEG alpha_data CN_p_data * s.p +
           np_interp s.alpha_DEG alpha_data CN_r_data * s.r)) ∧
    (∀ t : ℚ, (calculate_aero_lat_forces_moments_coeffs { s with beta := t }).CY =
      (calculate_aero_lat_forces_moments_coeffs { s with beta := 0 }).CY +
      np_interp s.alpha_DEG alpha_data CY_beta_data * t) ∧
    (∀ t : ℚ, (calculate_aero_lat_forces_moments_coeffs { s with delta_rud_RAD := t }).CY =
      (calculate_aero_lat_forces_moments_coeffs { s with delta_rud_RAD := 0 }).CY +
      np_interp s.alpha_DEG alpha_data CY_delta_rud_data * t) ∧
    (∀ t : ℚ, (calculate_aero_lat_forces_moments_coeffs { s with beta := t }).CN.getD 0 =
      (calculate_aero_lat_forces_moments_coeffs { s with beta := 0 }).CN.getD 0 +
      np_interp s.alpha_DEG alpha_data CN_beta_data * t) ∧
    (∀ t : ℚ, (calculate_aero_lat_forces_moments_coeffs { s with delta_rud_RAD := t }).CN.getD 0 =
      (calculate_aero_lat_forces_moments_coeffs { s with delta_rud_RAD := 0 }).CN.getD 0 +
      np_interp s.alpha_DEG alpha_data CN_delta_rud_data * t) := by
  refine ⟨rfl, rfl, rfl, ?_, ?_, ?_, ?_⟩ <;>
    · intro t
      simp only [calculate_aero_lat_forces_moments_coeffs, Option.getD_some]
      ring

/-- C7 witness: the side-force combination at the zero state, airspeed 50. -/
theorem C7_witness :
    (calculate_aero_lat_forces_moments_coeffs (zeroState 50)).CY =
      np_interp (zeroState 50).alpha_DEG alpha_data CY_beta_data * (zeroState 50).beta +
      np_interp (zeroState 50).alpha_DEG alpha_data CY_delta_rud_data * (zeroState 50).delta_rud_RAD +
      (span / (2 * (zeroState 50).TAS)) *
        (np_interp (zeroState 50).alpha_DEG alpha_data CY_p_data * (zeroState 50).p +
         np_interp (zeroState 50).alpha_DEG alpha_data CY_r_data * (zeroState 50).r) :=
  (C7_thm (zeroState 50) (by norm_num [zeroState, initCessna172])).1

/-- C8: Ct = 0.031 times the throttle; the thrust force vector is
(q_inf Sw Ct, 0, 0) along the body x-axis only; and the aggregator returns
total force = 10 thrust + gravity + (-D, Y, -L) and total moment (l, m, n),
with (L, D, Y, l, m, n) the dimensionalized aero forces and moments. -/
theorem C8_thm (s : Cessna172) (hV : 0 < s.TAS) :
    (calculate_thrust_forces_moments s).1.Ct = 0.031 * s.delta_t ∧
    (calculate_thrust_forces_moments s).2 = (s.q_inf * Sw * (0.031 * s.delta_t), 0, 0) ∧
    (calculate_forces_and_moments s).map (fun x => x.2) =
      some (add3 (add3 (smul3 10 (calculate_thrust_forces_moments s).2) s.gravity_force)
              (-(calculate_aero_forces_moments s).2.2.1,
                (calculate_aero_forces_moments s).2.2.2.1,
                -(calculate_aero_forces_moments s).2.1),
            ((calculate_aero_forces_moments s).2.2.2.2.1,
             (calculate_aero_forces_moments s).2.2.2.2.2.1,
             (calculate_aero_forces_moments s).2.2.2.2.2.2)) := by
  have hne : ¬ s.TAS = 0 := ne_of_gt hV
  refine ⟨rfl, rfl, ?_⟩
  simp only [calculate_forces_and_moments, hne, if_false, Option.map_some]
  rfl

/-- C8 witness: the thrust coefficient at the zero state, airspeed 50. -/
theorem C8_witness :
    (calculate_thrust_forces_moments (zeroState 50)).1.Ct =
      0.031 * (zeroState 50).delta_t :=
  (C8_thm (zeroState 50) (by norm_num [zeroState, initCessna172])).1

/-- A zero state carrying a nonzero gravity force, airspeed 50 and unit
dynamic pressure: the gravity contribution makes total-force doubling fail. -/
def C5state : Cessna172 :=
  { initCessna172 with TAS := 50, q_inf := 1, gravity_force := (0, 0, 100) }

/-- C5 counterexample: at the zero state with gravity force (0, 0, 100),
airspeed 50 and dynamic pressure 1, doubling q_inf to 2 does not double the
z-component of the total force returned by calculate_forces_and_moments:
gravity enters the sum additively and does not scale with q_inf. -/
theorem C5_counterexample :
    (calculate_forces_and_moments { C5state with q_inf := 2 }).map (fun x => x.2.1.2.2) ≠
      (calculate_forces_and_moments C5state).map (fun x => 2 * x.2.1.2.2) := by
  norm_num [calculate_forces_and_moments, calculate_aero_forces_moments,
    calculate_thrust_forces_moments, calculate_aero_lon_forces_moments_coeffs,
    calculate_aero_lat_forces_moments_coeffs, C5state, initCessna172,
    add3, smul3, lk_CL0, lk_CLde0, lk_CD0, lk_CDde00, lk_CM0, lk_CMde0,
    lk_CNda00, lk_Clda0, Sw, chord, span, ft2m]

/-- C5 amended: doubling q_inf doubles every dimensionalized aero force and
moment (L, D, Y, l, m, n), the thrust force vector, and every component of
the total moment; every component of the total force doubles as well
whenever the caller-supplied gravity force is zero, but not in general,
since gravity is added after the q_inf scaling. -/
theorem C5_amended (s : Cessna172) (hV : 0 < s.TAS) :
    (calculate_aero_forces_moments { s with q_inf := 2 * s.q_inf }).2 =
      (2 * (calculate_aero_forces_moments s).2.1,
       2 * (calculate_aero_forces_moments s).2.2.1,
       2 * (calculate_aero_forces_moments s).2.2.2.1,
       2 * (calculate_aero_forces_moments s).2.2.2.2.1,
       2 * (calculate_aero_forces_moments s).2.2.2.2.2.1,
       2 * (calculate_aero_forces_moments s).2.2.2.2.2.2) ∧
    (calculate_thrust_forces_moments { s with q_inf := 2 * s.q_inf }).2 =
      smul3 2 (calculate_thrust_forces_moments s).2 ∧
    (calculate_forces_and_moments { s with q_inf := 2 * s.q_inf }).map (fun x => x.2.2) =
      (calculate_forces_and_moments s).map (fun x => smul3 2 x.2.2) ∧
    (s.gravity_force = (0, 0, 0) →
      (calculate_forces_and_moments { s with q_inf := 2 * s.q_inf }).map (fun x => x.2.1) =
        (calculate_forces_and_moments s).map (fun x => smul3 2 x.2.1)) := by
  have hne : ¬ s.TAS = 0 := ne_of_gt hV
  refine ⟨?_, ?_, ?_, ?_⟩
  · simp only [calculate_aero_forces_moments, calculate_aero_lon_forces_moments_coeffs,
      calculate_aero_lat_forces_moments_coeffs, Option.getD_some, Prod.mk.injEq]
    refine ⟨?_, ?_, ?_, ?_, ?_, ?_⟩ <;> ring
  · simp only [calculate_thrust_forces_moments, smul3, Prod.mk.injEq]
    refine ⟨?_, ?_, ?_⟩ <;> ring
  · simp only [calculate_forces_and_moments, hne, if_false, Option.map_some',
      calculate_aero_forces_moments, calculate_thrust_forces_moments,
      calculate_aero_lon_forces_moments_coeffs, calculate_aero_lat_forces_moments_coeffs,
      Option.getD_some, smul3, add3, Prod.mk.injEq, Option.some.injEq]
    refine ⟨?_, ?_, ?_⟩ <;> ring
  · intro hg
    simp only [calculate_forces_and_moments, hne, if_false, Option.map_some',
      calculate_aero_forces_moments, calculate_thrust_forces_moments,
      calculate_aero_lon_forces_moments_coeffs, calculate_aero_lat_forces_moments_coeffs,
      Option.getD_some, smul3, add3, hg, Prod.mk.injEq, Option.some.injEq]
    refine ⟨?_, ?_, ?_⟩ <;> ring

/-- The zero state with airspeed 50 and dynamic pressure 5, gravity zero. -/
def C5zeroG : Cessna172 := { initCessna172 with TAS := 50, q_inf := 5 }

/-- C5 witness: with gravity zero, doubling q_inf doubles every component
of the total moment at the concrete state C5zeroG. -/
theorem C5_witness :
    (calculate_forces_and_moments { C5zeroG with q_inf := 2 * C5zeroG.q_inf }).map
        (fun x => x.2.2) =
      (calculate_forces_and_moments C5zeroG).map (fun x => smul3 2 x.2.2) :=
  (C5_amended C5zeroG (by norm_num [C5zeroG, initCessna172])).2.2.1

/-- One successful evaluation leaves the constructor-initialized fields Cm
and Cn untouched and stores in CM and CN exactly the longitudinal and
lateral coefficients of the state it was invoked on. -/
theorem calculate_frame (s : Cessna172)
    (x : Cessna172 × ((ℚ × ℚ × ℚ) × (ℚ × ℚ × ℚ)))
    (hc : calculate_forces_and_moments s = some x) :
    x.1.Cm = s.Cm ∧ x.1.Cn = s.Cn ∧
    x.1.CM = (calculate_aero_lon_forces_moments_coeffs s).CM ∧
    x.1.CN = (calculate_aero_lat_forces_moments_coeffs s).CN := by
  by_cases hT : s.TAS = 0
  · simp [calculate_forces_and_moments, hT] at hc
  · simp only [calculate_forces_and_moments, hT, if_false, Option.some.injEq] at hc
    obtain rfl : x = _ := hc.symm
    exact ⟨rfl, rfl, rfl, rfl⟩

/-- Across any successful sequence of evaluations started from any
instance, Cm and Cn keep their starting values, and after the last
evaluation CM and CN hold the coefficients computed from the last
integrator-written state. -/
theorem run_fields : ∀ (es : List ExternalState) (o o' : Cessna172),
    run o es = some o' →
    o'.Cm = o.Cm ∧ o'.Cn = o.Cn ∧
    ∀ elast : ExternalState, es.getLast? = some elast →
      o'.CM = (calculate_aero_lon_forces_moments_coeffs
          (set_state initCessna172 elast)).CM ∧
      o'.CN = (calculate_aero_lat_forces_moments_coeffs
          (set_state initCessna172 elast)).CN
  | [], o, o', h => by
    simp only [run, Option.some.injEq] at h
    subst h
    exact ⟨rfl, rfl, fun elast helast => by simp at helast⟩
  | e :: es, o, o', h => by
    simp only [run] at h
    cases hc : calculate_forces_and_moments (set_state o e) with
    | none => rw [hc] at h; exact Option.noConfusion h
    | some x =>
      rw [hc] at h
      change run x.1 es = some o' at h
      have hf := calculate_frame (set_state o e) x hc
      cases es with
      | nil =>
        have h' : x.1 = o' := by simpa [run] using h
        subst h'
        refine ⟨hf.1, hf.2.1, fun elast helast => ?_⟩
        have he : elast = e := by simpa using helast.symm
        subst he
        exact ⟨hf.2.2.1, hf.2.2.2⟩
      | cons e2 es2 =>
        have ih := run_fields (e2 :: es2) x.1 o' h
        refine ⟨ih.1.trans hf.1, ih.2.1.trans hf.2.1, fun elast helast => ?_⟩
        exact ih.2.2 elast (by simpa using helast)

/-- C10: the fields Cm and Cn initialized to 0 by the constructor are never
written by any evaluation: for every sequence of integrator inputs whose
evaluations all succeed, a diagnostic read of Cm or Cn on the final
instance returns 0, while CM and CN hold the coefficients computed from
the last input. -/
theorem C10_thm (es : List ExternalState) (o' : Cessna172)
    (h : run initCessna172 es = some o') :
    o'.Cm = 0 ∧ o'.Cn = 0 ∧
    ∀ elast : ExternalState, es.getLast? = some elast →
      o'.CM = (calculate_aero_lon_forces_moments_coeffs
          (set_state initCessna172 elast)).CM ∧
      o'.CN = (calculate_aero_lat_forces_moments_coeffs
          (set_state initCessna172 elast)).CN :=
  run_fields es initCessna172 o' h

/-- A concrete integrator input: the zero state at airspeed 50 and unit
dynamic pressure. -/
def exInput : ExternalState :=
  { alpha_DEG := 0, beta := 0, alpha_dot := 0, p := 0, q := 0, r := 0
    TAS := 50, q_inf := 1
    delta_elev_DEG := 0, delta_aile_DEG := 0, delta_rud_RAD := 0, delta_t := 0
    gravity_force := (0, 0, 0) }

/-- The instance left by one evaluation at exInput. -/
def runOut : Cessna172 :=
  ((calculate_forces_and_moments (set_state initCessna172 exInput)).getD
    (initCessna172, ((0, 0, 0), (0, 0, 0)))).1

/-- C10 witness: after the single-evaluation sequence at exInput the
diagnostic fields Cm and Cn still read 0. -/
theorem C10_witness : runOut.Cm = 0 ∧ runOut.Cn = 0 :=
  have h : run initCessna172 [exInput] = some runOut := by
    have hT : ¬ (set_state initCessna172 exInput).TAS = 0 := by
      norm_num [set_state, exInput, initCessna172]
    simp only [run, runOut, calculate_forces_and_moments, hT, if_false, Option.getD_some]
  ⟨(C10_thm [exInput] runOut h).1, (C10_thm [exInput] runOut h).2.1⟩

end PyFME
